import Mathlib

/-!
Shallow embedding of the VAL-AI core subsystems: the safety governor
(`src/core/core.py`), the undo/time-travel manager (`src/engine/undo.py`),
the command executor (`src/engine/command_executor.py`) and the memory
safety/workflow layer (`src/core/memory.py`).  Each definition mirrors one
Python function; stateful methods become explicit state-passing functions.
-/

namespace ValAI

/-! ### Safety governor (`AgentGovernor` in `src/core/core.py`)

`self.usage` holds three rolling windows of timestamps.  `check` first
prunes every window to entries younger than 3600 seconds, then applies the
category-specific limit, then the global action ceiling.  Timestamps are
modelled as integers (seconds). -/

structure Usage where
  actions : List Int
  deletions : List Int
  resets : List Int
deriving Repr, DecidableEq

/-- `[t for t in window if now - t < 3600]` -/
def pruneW (now : Int) (w : List Int) : List Int :=
  w.filter (fun t => now - t < 3600)

/-- `AgentGovernor.check(action_type)` (src/core/core.py lines 24-42).
Returns the boolean verdict together with the updated usage state.
Mirrors the Python control flow exactly: the delete / reset branches may
append to their window and still be refused by the global action ceiling. -/
def govCheck (u : Usage) (actionType : String) (now : Int) : Bool × Usage :=
  let act := pruneW now u.actions
  let del := pruneW now u.deletions
  let res := pruneW now u.resets
  if actionType = "delete" then
    if 2 ≤ del.length then (false, ⟨act, del, res⟩)
    else
      let del := del ++ [now]
      if 20 ≤ act.length then (false, ⟨act, del, res⟩)
      else (true, ⟨act ++ [now], del, res⟩)
  else if actionType = "reset" then
    if 1 ≤ res.length then (false, ⟨act, del, res⟩)
    else
      let res := res ++ [now]
      if 20 ≤ act.length then (false, ⟨act, del, res⟩)
      else (true, ⟨act ++ [now], del, res⟩)
  else
    if 20 ≤ act.length then (false, ⟨act, del, res⟩)
    else (true, ⟨act ++ [now], del, res⟩)

/-- The governor state at process start: three empty windows. -/
def emptyUsage : Usage := ⟨[], [], []⟩

/-! ### Undo manager (`UndoManager` in `src/engine/undo.py`)

The ledger (`self.stack`) is a list of entries whose last element is the
top of the stack (Python appends and pops at the end).  `details` is the
string-keyed mapping that each executor passes along. -/

structure UndoEntry where
  timestamp : String
  operation : String
  details : List (String × String)
  undo_action : String
deriving Repr, DecidableEq

/-- `UndoManager._infer_undo_action` (src/engine/undo.py lines 95-111). -/
def inferUndoAction (operation : String) (_details : List (String × String)) : String :=
  if operation = "create_project" then "delete_project"
  else if operation = "install_dependency" then "uninstall_dependency"
  else if operation = "git_commit" then "git_reset_commit"
  else if operation = "delete_file" then "restore_file"
  else if operation = "delete_folder" then "restore_folder"
  else if operation = "create_file" then "delete_file"
  else if operation = "create_folder" then "delete_folder"
  else "unknown"

/-- The entry built at the top of `log_operation`; `undo_action or
self._infer_undo_action(...)` treats `None` and the empty string as falsy. -/
def mkEntry (ts operation : String) (details : List (String × String))
    (undoAction : Option String) : UndoEntry :=
  ⟨ts, operation, details,
    match undoAction with
    | some s => if s = "" then inferUndoAction operation details else s
    | none => inferUndoAction operation details⟩

/-- `UndoManager.log_operation` (src/engine/undo.py lines 38-53): append the
entry, then truncate to the last 50 (`self.stack[-50:]`) when the stack
exceeds 50 entries. -/
def logOperation (stack : List UndoEntry) (ts operation : String)
    (details : List (String × String)) (undoAction : Option String) : List UndoEntry :=
  let stack := stack ++ [mkEntry ts operation details undoAction]
  if 50 < stack.length then stack.drop (stack.length - 50) else stack

/-- Collaborator outcomes for `UndoManager._execute_undo`: filesystem tests,
trash moves and subprocess calls.  `Except.error` models a raised exception,
`Except.ok` the value the Python expression produces. -/
structure FsWorld where
  pathExists : String → Bool
  moveToTrash : String → Except String String
  pipUninstall : String → Except String String
  npmUninstall : String → Except String String
  gitResetSoft : String → Except String String
  latestTrashMatch : String → Except String (Option String)
  moveFromTrash : String → String → Except String Unit

/-- Python `d.get(k, default)`. -/
def dictGetD (d : List (String × String)) (k default : String) : String :=
  (d.lookup k).getD default

/-- `UndoManager._execute_undo` (src/engine/undo.py lines 113-162).
`details["path"]` raises `KeyError` when the key is absent; an
`uninstall_dependency` entry whose `type` is neither `python` nor `node`
falls through the inner if/elif to the final return, exactly as the Python
does.  The final branch RETURNS a string — it does not raise. -/
def executeUndo (w : FsWorld) (entry : UndoEntry) : Except String String :=
  let details := entry.details
  let ua := entry.undo_action
  if ua = "delete_project" then
    match details.lookup "path" with
    | none => .error "KeyError: path"
    | some p =>
      if w.pathExists p then
        (w.moveToTrash p).map (fun trashPath => "Moved project to trash: " ++ trashPath)
      else .ok "Project already deleted"
  else if ua = "uninstall_dependency" then
    let name := dictGetD details "name" ""
    let ptype := dictGetD details "type" "python"
    if ptype = "python" then
      (w.pipUninstall name).map (fun out => "Uninstalled " ++ name ++ ": " ++ out)
    else if ptype = "node" then
      (w.npmUninstall name).map (fun out => "Uninstalled " ++ name ++ ": " ++ out)
    else .ok ("Unknown undo action: " ++ ua)
  else if ua = "git_reset_commit" then
    let cwd := dictGetD details "cwd" "."
    (w.gitResetSoft cwd).map (fun out => "Reset last commit: " ++ out)
  else if ua = "restore_file" then
    match details.lookup "path" with
    | none => .error "KeyError: path"
    | some p =>
      match w.latestTrashMatch p with
      | .error e => .error e
      | .ok none => .ok "File not found in trash"
      | .ok (some trash) => (w.moveFromTrash trash p).map (fun _ => "Restored file: " ++ p)
  else if ua = "restore_folder" then
    match details.lookup "path" with
    | none => .error "KeyError: path"
    | some p =>
      match w.latestTrashMatch p with
      | .error e => .error e
      | .ok none => .ok "Folder not found in trash"
      | .ok (some trash) => (w.moveFromTrash trash p).map (fun _ => "Restored folder: " ++ p)
  else .ok ("Unknown undo action: " ++ ua)

/-- `UndoManager.undo_last` (src/engine/undo.py lines 55-72).  Returns the
user-visible message, the resulting ledger, and the event(s) logged through
`memory.log_event` as `(event_type, operation)` pairs. -/
def undoLast (w : FsWorld) (stack : List UndoEntry) :
    String × List UndoEntry × List (String × String) :=
  match stack.getLast? with
  | none => ("❌ Nothing to undo", stack, [])
  | some entry =>
    let popped := stack.dropLast
    match executeUndo w entry with
    | .ok result =>
      ("↩️ Undone: " ++ entry.operation ++ "\n" ++ result, popped,
        [("undo_executed", entry.operation)])
    | .error e =>
      ("❌ Undo failed: " ++ e, popped ++ [entry],
        [("undo_failed", entry.operation)])

/-- The five inverse kinds `_execute_undo` can actually execute (the
dispatch branches of src/engine/undo.py lines 119-160). -/
def executableInverseKinds : List String :=
  ["delete_project", "uninstall_dependency", "git_reset_commit",
   "restore_file", "restore_folder"]

/-! ### Command executor (`execute_command` in `src/engine/command_executor.py`)

Filesystem queries are abstracted into `SimFs`; the returned pair is the
user-visible message and the updated undo ledger.  `ts` stands for the
`datetime.now().isoformat()` timestamp `log_operation` records. -/

structure SimFs where
  pathExists : String → Bool
  isDir : String → Bool
  isFile : String → Bool
  mtime : String → String

/-- Python truthiness of `a or b` on optional strings: an empty string is
falsy. -/
def pyOr (a b : Option String) : Option String :=
  match a with
  | some s => if s = "" then b else some s
  | none => b

/-- `Path(p).name`: the last non-empty `/`-separated component. -/
def baseName (p : String) : String :=
  (((p.splitOn "/").filter (fun s => ¬ s = "")).getLast?).getD ""

/-- `intent.get("path") or intent.get("target") or ""`. -/
def intentPath (intent : List (String × String)) : String :=
  (pyOr (intent.lookup "path") (intent.lookup "target")).getD ""

/-- `execute_command(intent)` (src/engine/command_executor.py lines 8-60). -/
def executeCommand (fs : SimFs) (ts : String) (intent : List (String × String))
    (stack : List UndoEntry) : String × List UndoEntry :=
  let action := intent.lookup "action"
  let p := intentPath intent
  if action = some "create_folder" then
    ("📁 Folder created at " ++ p,
      logOperation stack ts "create_folder" [("path", p)] none)
  else if action = some "create_file" then
    if ¬ fs.pathExists p then
      ("📄 File created at " ++ p,
        logOperation stack ts "create_file" [("path", p)] none)
    else ("ℹ️ File already exists at " ++ p, stack)
  else if action = some "delete_folder" then
    if fs.pathExists p && fs.isDir p then
      let trash := "logs/trash/" ++ baseName p ++ "_" ++ fs.mtime p
      ("🗑️ Folder moved to trash: " ++ trash,
        logOperation stack ts "delete_folder" [("path", p), ("trash_path", trash)] none)
    else ("⚠️ Folder does not exist: " ++ p, stack)
  else if action = some "delete_file" then
    if fs.pathExists p && fs.isFile p then
      let trash := "logs/trash/" ++ baseName p ++ "_" ++ fs.mtime p
      ("🗑️ File moved to trash: " ++ trash,
        logOperation stack ts "delete_file" [("path", p), ("trash_path", trash)] none)
    else ("⚠️ File does not exist: " ++ p, stack)
  else if action = some "force_delete" then
    if fs.pathExists p then
      ("💥 Force deleted: " ++ p,
        logOperation stack ts "force_delete" [("path", p)] none)
    else ("⚠️ Path does not exist: " ++ p, stack)
  else ("⚠️ Unknown command", stack)

/-! ### Safety checks (`Memory.check_safety` in `src/core/memory.py`)

Intents reaching `check_safety` are string-keyed dictionaries; `str(intent)`
is the Python `repr` of such a dictionary.  Substring and prefix tests are
spelled out over character lists so every predicate is decidable. -/

def listIsPrefixOf : List Char → List Char → Bool
  | [], _ => true
  | _ :: _, [] => false
  | a :: as, b :: bs => a = b && listIsPrefixOf as bs

/-- `hay` contains `needle` as a contiguous substring (Python `needle in hay`). -/
def listContainsSub (needle : List Char) : List Char → Bool
  | [] => listIsPrefixOf needle []
  | c :: rest => listIsPrefixOf needle (c :: rest) || listContainsSub needle rest

/-- Python `pre in s` restricted to the start: `s.startswith(pre)`. -/
def strStartsWith (s pre : String) : Bool := listIsPrefixOf pre.data s.data

/-- Python `needle in hay` on strings. -/
def strContains (hay needle : String) : Bool := listContainsSub needle.data hay.data

/-- Python `s.lower()` (ASCII case folding, character by character). -/
def strToLower (s : String) : String := String.mk (s.data.map Char.toLower)

/-- `PROTECTED_PATHS` (src/core/memory.py lines 27-37), in source order. -/
def PROTECTED_PATHS : List String :=
  ["/", "C:/Windows", "C:/Program Files", "C:/Program Files (x86)",
   "/System", "/Library", "/usr", "/bin", "/etc"]

structure SafetyRule where
  ruleType : String
  pattern : String
  action : String
  reason : String
deriving Repr, DecidableEq

/-- The rows `_load_safety_rules` inserts into a fresh `safety_rules` table
(src/core/memory.py lines 207-225), in insertion (= id) order. -/
def defaultSafetyRules : List SafetyRule :=
  (PROTECTED_PATHS.map
    (fun p => ⟨"protected_path", p, "deny", "System protected path"⟩)) ++
  [⟨"dangerous_action", "delete", "confirm", "Destructive operation"⟩,
   ⟨"dangerous_action", "format", "confirm", "Data loss risk"⟩,
   ⟨"dangerous_action", "rm -rf", "confirm", "Recursive delete"⟩,
   ⟨"dangerous_action", "force", "confirm", "Force operation"⟩]

/-- The `SafetyVerdict` dictionary `check_safety` returns. -/
structure Verdict where
  safe : Bool
  action : String
  level : String
  reason : String
deriving Repr, DecidableEq

/-- Python `repr` of a string-valued dict: `\x7b'k': 'v', ...\x7d`. -/
def pyDictRepr (d : List (String × String)) : String :=
  "\x7b" ++
    String.intercalate ", "
      (d.map (fun kv => "'" ++ kv.1 ++ "': '" ++ kv.2 ++ "'")) ++ "\x7d"

/-- The read-only intent names of src/core/memory.py line 426. -/
def readOnlyIntents : List String :=
  ["list_projects", "status", "help", "explain_file", "check_health", "open_app"]

/-- `intent.get("intent") in [...]` (line 426): a missing key gives `None`,
which is in no list. -/
def isReadOnlyIntent (intent : List (String × String)) : Bool :=
  match intent.lookup "intent" with
  | some n => readOnlyIntents.contains n
  | none => false

/-- The protected-path scan of `check_safety` (lines 430-438): run only when
`path` is truthy; the first `PROTECTED_PATHS` entry `path` starts with wins. -/
def protectedHit : Option String → Option String
  | none => none
  | some p => if p = "" then none else PROTECTED_PATHS.find? (fun q => strStartsWith p q)

/-- One row of the dangerous-action scan (lines 445-447): the rule fires when
its pattern occurs in the lowercased action text or in the lowercased
`str(intent)`. -/
def ruleMatches (intent : List (String × String)) (action : String)
    (r : SafetyRule) : Bool :=
  r.ruleType = "dangerous_action" &&
    (strContains (strToLower action) r.pattern ||
     strContains (strToLower (pyDictRepr intent)) r.pattern)

/-- The verdict built for a fired dangerous-action rule (lines 448-459). -/
def ruleVerdict (r : SafetyRule) : Verdict :=
  ⟨r.action = "allow", r.action,
    if strContains r.pattern "reset" || strContains r.pattern "force"
    then "CRITICAL" else "DANGEROUS",
    r.reason⟩

/-- `Memory.check_safety(intent, action, path)` (src/core/memory.py lines
417-461). -/
def checkSafety (rules : List SafetyRule) (intent : List (String × String))
    (action : String) (path : Option String) : Verdict :=
  let level := if isReadOnlyIntent intent then "SAFE" else "NORMAL"
  match protectedHit path with
  | some pr => ⟨false, "deny", "CRITICAL", "Protected system path: " ++ pr⟩
  | none =>
    match rules.find? (ruleMatches intent action) with
    | some r => ruleVerdict r
    | none => ⟨true, "allow", level, ""⟩

/-! ### Workflow store (`remember_workflow` / `get_workflows_for_trigger`,
src/core/memory.py lines 655-685, over `remember` and `search`,
lines 228-304)

The `memory` table is modelled as a list of rows kept in
most-recently-updated-first order, so that a stable sort on
`access_count DESC` realises SQLite's `ORDER BY access_count DESC,
updated_at DESC`.  Workflow rows store the dictionary `remember_workflow`
builds; the JSON round-trip through the `value` column is the identity on
such dictionaries.  The `md5(...).hexdigest()[:8]` id is abstracted as a
caller-supplied function of the hashed text. -/

structure Trigger where
  intent : String
  tech : Option String
deriving Repr, DecidableEq

structure WorkflowData where
  wid : String
  trigger : Trigger
  actions : List String
  scope : String
  confidence : ℚ
  enabled : Bool
deriving Repr, DecidableEq

structure MemRow where
  key : String
  value : WorkflowData
  mtype : String
  tags : String
  accessCount : Nat
deriving Repr, DecidableEq

/-- `Memory.remember` (lines 228-246): upsert by key; on conflict the value,
tags and `updated_at` are replaced and `access_count` is incremented (the
`type` column is not part of the update set).  The updated/new row becomes
the most recently updated one. -/
def memRemember (tbl : List MemRow) (key : String) (value : WorkflowData)
    (mtype : String) (tags : String) : List MemRow :=
  match tbl.find? (fun r => r.key = key) with
  | some r =>
    ⟨key, value, r.mtype, tags, r.accessCount + 1⟩ ::
      tbl.filter (fun r => ¬ r.key = key)
  | none => ⟨key, value, mtype, tags, 0⟩ :: tbl

/-- Stable insertion into a list sorted by `accessCount` descending. -/
def insertByAccess (r : MemRow) : List MemRow → List MemRow
  | [] => [r]
  | x :: xs =>
    if x.accessCount < r.accessCount then r :: x :: xs
    else x :: insertByAccess r xs

/-- Stable sort by `accessCount` descending; ties keep list order, i.e.
most-recently-updated first. -/
def sortByAccess : List MemRow → List MemRow
  | [] => []
  | r :: rs => insertByAccess r (sortByAccess rs)

/-- The `value` column text of a workflow row: `json.dumps` of the
dictionary `remember_workflow` builds.  (The numeric and timestamp fields
are rendered nominally; every `search` call in the claims passes the empty
query, for which any `LIKE` test succeeds whatever the rendering.) -/
def jsonOfWorkflow (d : WorkflowData) : String :=
  "\x7b\"id\": \"" ++ d.wid ++ "\", \"trigger\": \x7b\"intent\": \"" ++
    d.trigger.intent ++ "\"" ++
    (match d.trigger.tech with
     | some t => ", \"tech\": \"" ++ t ++ "\""
     | none => "") ++
    "\x7d, \"actions\": [" ++
    String.intercalate ", " (d.actions.map (fun a => "\"" ++ a ++ "\"")) ++
    "], \"scope\": \"" ++ d.scope ++ "\", \"confidence\": " ++
    toString d.confidence ++ ", \"enabled\": " ++
    (if d.enabled then "true" else "false") ++ "\x7d"

/-- The WHERE clause of `Memory.search` (lines 278-289).  SQL `AND` binds
tighter than `OR`, so the `type` filter only constrains the tags side:
`value LIKE q OR (tags LIKE q AND type = t)`. -/
def searchRowMatches (query : String) (mtype : Option String) (r : MemRow) : Bool :=
  strContains (jsonOfWorkflow r.value) query ||
    (strContains r.tags query &&
      (match mtype with | some t => r.mtype = t | none => true))

/-- `Memory.search(query, memory_type, limit)` (lines 276-304): filter,
order by `access_count DESC, updated_at DESC`, and apply `LIMIT`. -/
def memSearch (tbl : List MemRow) (query : String) (mtype : Option String)
    (limit : Nat) : List MemRow :=
  ((sortByAccess (tbl.filter (searchRowMatches query mtype)))).take limit

/-- `Memory.remember_workflow(trigger, actions, scope)` (lines 655-669).
Returns the updated table and the key the workflow was stored under. -/
def rememberWorkflow (hashFn : String → String) (tbl : List MemRow)
    (trigger : Trigger) (actions : List String) (scope : String) :
    List MemRow × String :=
  let techTag := trigger.tech.getD "any"
  let data : WorkflowData :=
    ⟨hashFn (trigger.intent ++ "_" ++ techTag ++ "_" ++ scope),
      trigger, actions, scope, 9 / 10, true⟩
  let key := "workflow_" ++ trigger.intent ++ "_" ++ techTag ++ "_" ++ scope
  (memRemember tbl key data "workflow" "", key)

/-- Stable insertion into a list sorted by `confidence` descending. -/
def insertByConf (w : WorkflowData) : List WorkflowData → List WorkflowData
  | [] => [w]
  | x :: xs =>
    if x.confidence < w.confidence then w :: x :: xs
    else x :: insertByConf w xs

/-- `matched.sort(key=lambda x: x["confidence"], reverse=True)`: Python's
sort is stable. -/
def sortByConf : List WorkflowData → List WorkflowData
  | [] => []
  | w :: ws => insertByConf w (sortByConf ws)

/-- The per-workflow filter of `get_workflows_for_trigger` (lines 675-682). -/
def workflowFilter (intentName : String) (tech : Option String) (scope : String)
    (d : WorkflowData) : Bool :=
  d.trigger.intent = intentName &&
    (match tech with | none => true | some t => d.trigger.tech = some t) &&
    d.scope = scope && d.enabled

/-- `Memory.get_workflows_for_trigger(intent_name, tech, scope)` (lines
671-685). -/
def getWorkflowsForTrigger (tbl : List MemRow) (intentName : String)
    (tech : Option String) (scope : String) : List WorkflowData :=
  sortByConf
    (((memSearch tbl "" (some "workflow") 50).map (fun r => r.value)).filter
      (workflowFilter intentName tech scope))

/-! ### Pattern detection (`Memory.detect_repeated_pattern`,
src/core/memory.py lines 695-715)

The input list stands for `get_recent_events(20)`.  The counting dictionary
is an association list with Python-dict semantics: updating a key in place
preserves its first-insertion position, and iteration is in insertion
order. -/

structure Ev where
  intent : String
  success : Bool
deriving Repr, DecidableEq

/-- `sequences[key] = sequences.get(key, 0) + 1` on an insertion-ordered
dictionary. -/
def bumpKey : List (String × Nat) → String → List (String × Nat)
  | [], k => [(k, 1)]
  | (k', c) :: rest, k =>
    if k' = k then (k', c + 1) :: rest else (k', c) :: bumpKey rest k

/-- The `(events[i], events[i+1])` pairs of the counting loop. -/
def adjPairs : List Ev → List (Ev × Ev)
  | a :: b :: rest => (a, b) :: adjPairs (b :: rest)
  | _ => []

/-- The counting loop of lines 698-704. -/
def buildSequences (events : List Ev) : List (String × Nat) :=
  (adjPairs events).foldl
    (fun acc p =>
      if p.1.success && p.2.success
      then bumpKey acc (p.1.intent ++ "_" ++ p.2.intent)
      else acc)
    []

/-- `seq.split("_", 1)`: split at the first underscore, when there is one. -/
def splitOnceUnderscore (s : String) : Option (String × String) :=
  go s.data |>.map (fun lr => (String.mk lr.1, String.mk lr.2))
where
  go : List Char → Option (List Char × List Char)
    | [] => none
    | c :: rest =>
      if c = '_' then some ([], rest)
      else (go rest).map (fun lr => (c :: lr.1, lr.2))

structure SuggestedPattern where
  triggerIntent : String
  actions : List String
  confidence : ℚ
deriving Repr, DecidableEq

/-- `Memory.detect_repeated_pattern(min_occurrences)` (lines 695-715).
Iteration over the dictionary returns the first key, in insertion order,
whose count reaches the threshold.  Every key produced by the counting loop
contains the joining underscore, so the `none` fallback of the split is
unreachable on real inputs. -/
def detectRepeatedPattern (events : List Ev) (minOccurrences : Nat) :
    Option SuggestedPattern :=
  match (buildSequences events).find? (fun kc => minOccurrences ≤ kc.2) with
  | none => none
  | some kc =>
    match splitOnceUnderscore kc.1 with
    | none => none
    | some ta => some ⟨ta.1, [ta.2], (kc.2 : ℚ) / (events.length : ℚ)⟩

/-! ### Concrete test fixtures used by witnesses and counterexamples -/

/-- A collaborator world in which every filesystem query fails and every
external call succeeds trivially. -/
def trivialWorld : FsWorld :=
  ⟨fun _ => false, fun _ => .ok "", fun _ => .ok "", fun _ => .ok "",
   fun _ => .ok "", fun _ => .ok none, fun _ _ => .ok ()⟩

/-- A filesystem in which every path exists as a file. -/
def allFilesFs : SimFs := ⟨fun _ => true, fun _ => false, fun _ => true, fun _ => "1"⟩

/-- Twenty recent events realising the spec scenario for
`detect_repeated_pattern`: the adjacent pair
`(create_flask_project, install_dependencies)` occurs exactly three times,
both members successful, and no other adjacent pair repeats. -/
def scenarioEvents : List Ev :=
  [⟨"create_flask_project", true⟩, ⟨"install_dependencies", true⟩, ⟨"e1", true⟩,
   ⟨"create_flask_project", true⟩, ⟨"install_dependencies", true⟩, ⟨"e2", true⟩,
   ⟨"create_flask_project", true⟩, ⟨"install_dependencies", true⟩, ⟨"e3", true⟩,
   ⟨"e4", true⟩, ⟨"e5", true⟩, ⟨"e6", true⟩, ⟨"e7", true⟩, ⟨"e8", true⟩,
   ⟨"e9", true⟩, ⟨"e10", true⟩, ⟨"e11", true⟩, ⟨"e12", true⟩, ⟨"e13", true⟩,
   ⟨"e14", true⟩]

/-! ## Shared helper lemmas -/

theorem listContainsSub_nil (l : List Char) : listContainsSub [] l = true := by
  cases l <;> simp [listContainsSub, listIsPrefixOf]

theorem strContains_empty (s : String) : strContains s "" = true := by
  simpa [strContains] using listContainsSub_nil s.data

/-- `log_operation` always puts the freshly built entry on top of the
ledger, truncation or not. -/
theorem logOperation_getLast (stack : List UndoEntry) (ts operation : String)
    (details : List (String × String)) (ua : Option String) :
    (logOperation stack ts operation details ua).getLast? =
      some (mkEntry ts operation details ua) := by
  unfold logOperation
  by_cases h : 50 < (stack ++ [mkEntry ts operation details ua]).length
  · rw [if_pos h]
    have hle : (stack ++ [mkEntry ts operation details ua]).length - 50 ≤ stack.length := by
      simp only [List.length_append, List.length_cons, List.length_nil]
      omega
    rw [List.drop_append_eq_append_drop, Nat.sub_eq_zero_of_le hle,
      List.drop_zero, List.getLast?_concat]
  · rw [if_neg h, List.getLast?_concat]

/-- In the default rule table, every rule of type `dangerous_action` carries
the action `confirm`. -/
theorem defaultRules_dangerous_confirm :
    ∀ r ∈ defaultSafetyRules, r.ruleType = "dangerous_action" → r.action = "confirm" := by
  decide

/-- Unfolding `check_safety` on a protected-path hit. -/
theorem checkSafety_protected (rules : List SafetyRule)
    (intent : List (String × String)) (action : String) (path : Option String)
    (pr : String) (h : protectedHit path = some pr) :
    checkSafety rules intent action path =
      ⟨false, "deny", "CRITICAL", "Protected system path: " ++ pr⟩ := by
  unfold checkSafety
  rw [h]

/-- Unfolding `check_safety` on a dangerous-action rule hit. -/
theorem checkSafety_rule (rules : List SafetyRule)
    (intent : List (String × String)) (action : String) (path : Option String)
    (r : SafetyRule) (hp : protectedHit path = none)
    (hf : rules.find? (ruleMatches intent action) = some r) :
    checkSafety rules intent action path = ruleVerdict r := by
  unfold checkSafety
  rw [hp, hf]

/-- Unfolding `check_safety` when no rule fires. -/
theorem checkSafety_fallback (rules : List SafetyRule)
    (intent : List (String × String)) (action : String) (path : Option String)
    (hp : protectedHit path = none)
    (hf : rules.find? (ruleMatches intent action) = none) :
    checkSafety rules intent action path =
      ⟨true, "allow", if isReadOnlyIntent intent then "SAFE" else "NORMAL", ""⟩ := by
  unfold checkSafety
  rw [hp, hf]

/-- A rule `find?` returns from the default table has action `confirm`. -/
theorem find_default_rule_confirm (intent : List (String × String))
    (action : String) (r : SafetyRule)
    (hf : defaultSafetyRules.find? (ruleMatches intent action) = some r) :
    r.action = "confirm" := by
  have hmem := List.mem_of_find?_eq_some hf
  have hmatch := List.find?_some hf
  have htype : r.ruleType = "dangerous_action" := by
    simp only [ruleMatches, Bool.and_eq_true, decide_eq_true_eq] at hmatch
    exact hmatch.1
  exact defaultRules_dangerous_confirm r hmem htype

/-! ## Claim theorems -/

/-- C5: After every call to `log_operation`, the undo ledger holds at most
50 entries, and the resulting ledger is exactly the newest-entries suffix of
the appended ledger (when no truncation is needed the dropped prefix is
empty). -/
theorem log_operation_keeps_newest_50 (stack : List UndoEntry) (ts operation : String)
    (details : List (String × String)) (ua : Option String) :
    (logOperation stack ts operation details ua).length ≤ 50 ∧
      logOperation stack ts operation details ua =
        (stack ++ [mkEntry ts operation details ua]).drop (stack.length + 1 - 50) := by
  unfold logOperation
  have hlen : (stack ++ [mkEntry ts operation details ua]).length = stack.length + 1 := by
    simp
  by_cases h : 50 < (stack ++ [mkEntry ts operation details ua]).length
  · rw [if_pos h]
    refine ⟨?_, by rw [hlen]⟩
    rw [List.length_drop, hlen]
    omega
  · rw [if_neg h]
    rw [hlen] at h
    have h0 : stack.length + 1 - 50 = 0 := by omega
    constructor
    · rw [hlen]; omega
    · rw [h0, List.drop_zero]

/-- C4: Starting from empty usage windows, two delete-category checks within
one rolling hour are admitted, the third is refused, and the refused call
leaves the delete window unchanged (no timestamp recorded). -/
theorem governor_delete_limit (t1 t2 t3 : Int) (h12 : t1 ≤ t2) (h23 : t2 ≤ t3)
    (hwin : t3 - t1 < 3600) :
    (govCheck emptyUsage "delete" t1).1 = true ∧
      (govCheck (govCheck emptyUsage "delete" t1).2 "delete" t2).1 = true ∧
      (govCheck (govCheck (govCheck emptyUsage "delete" t1).2 "delete" t2).2
        "delete" t3).1 = false ∧
      (govCheck (govCheck (govCheck emptyUsage "delete" t1).2 "delete" t2).2
        "delete" t3).2.deletions = [t1, t2] := by
  have e1 : govCheck emptyUsage "delete" t1 = (true, ⟨[t1], [t1], []⟩) := by
    simp [govCheck, emptyUsage, pruneW]
  have hk1 : t2 - t1 < 3600 := by omega
  have e2 : govCheck (⟨[t1], [t1], []⟩ : Usage) "delete" t2 =
      (true, ⟨[t1, t2], [t1, t2], []⟩) := by
    simp [govCheck, pruneW, hk1]
  have hk2 : t3 - t1 < 3600 := by omega
  have hk3 : t3 - t2 < 3600 := by omega
  have e3 : govCheck (⟨[t1, t2], [t1, t2], []⟩ : Usage) "delete" t3 =
      (false, ⟨[t1, t2], [t1, t2], []⟩) := by
    simp [govCheck, pruneW, hk2, hk3]
  rw [e1, e2, e3]
  exact ⟨rfl, rfl, rfl, rfl⟩

/-- C4 witness: instantiated at the concrete times 0, 1, 2. -/
theorem governor_delete_limit_witness :
    (0 : Int) ≤ 1 ∧ (1 : Int) ≤ 2 ∧ (2 : Int) - 0 < 3600 ∧
      ((govCheck emptyUsage "delete" 0).1 = true ∧
        (govCheck (govCheck emptyUsage "delete" 0).2 "delete" 1).1 = true ∧
        (govCheck (govCheck (govCheck emptyUsage "delete" 0).2 "delete" 1).2
          "delete" 2).1 = false ∧
        (govCheck (govCheck (govCheck emptyUsage "delete" 0).2 "delete" 1).2
          "delete" 2).2.deletions = [0, 1]) :=
  ⟨by norm_num, by norm_num, by norm_num,
    governor_delete_limit 0 1 2 (by norm_num) (by norm_num) (by norm_num)⟩

/-- C10: For every category other than `delete` and `reset`, the governor
consults only the pruned all-actions window: it admits and records the
timestamp exactly when that window holds fewer than 20 entries younger than
3600 seconds, and refuses without recording otherwise. -/
theorem governor_other_category_global_window (cat : String) (hd : cat ≠ "delete")
    (hr : cat ≠ "reset") (u : Usage) (now : Int) :
    govCheck u cat now =
      if (pruneW now u.actions).length < 20 then
        (true, ⟨pruneW now u.actions ++ [now], pruneW now u.deletions,
          pruneW now u.resets⟩)
      else
        (false, ⟨pruneW now u.actions, pruneW now u.deletions, pruneW now u.resets⟩) := by
  unfold govCheck
  rw [if_neg hd, if_neg hr]
  by_cases h : 20 ≤ (pruneW now u.actions).length
  · rw [if_pos h, if_neg (by omega)]
  · rw [if_neg h, if_pos (by omega)]

/-- C10 witness: instantiated at the category `normal`, an empty state and
time 0. -/
theorem governor_other_category_global_window_witness :
    govCheck emptyUsage "normal" 0 = (true, ⟨[0], [], []⟩) := by
  rw [governor_other_category_global_window "normal" (by decide) (by decide)
    emptyUsage 0]
  decide

/-- C1: contrary to the spec, popping an entry whose inverse kind is not one
of the five executable inverse kinds makes `undo_last` take its SUCCESS
path: `_execute_undo` returns the string `Unknown undo action: ...` instead
of raising, so the entry is NOT pushed back (the ledger shrinks by one) and
an `undo_executed` event — not `undo_failed` — is logged. -/
theorem undo_unknown_inverse_takes_success_path (w : FsWorld)
    (stack : List UndoEntry) (e : UndoEntry)
    (h : e.undo_action ∉ executableInverseKinds) :
    undoLast w (stack ++ [e]) =
      ("↩️ Undone: " ++ e.operation ++ "\n" ++
          ("Unknown undo action: " ++ e.undo_action),
        stack, [("undo_executed", e.operation)]) := by
  simp only [executableInverseKinds, List.mem_cons, List.not_mem_nil, or_false,
    not_or] at h
  obtain ⟨h1, h2, h3, h4, h5⟩ := h
  have hex : executeUndo w e = .ok ("Unknown undo action: " ++ e.undo_action) := by
    unfold executeUndo
    rw [if_neg h1, if_neg h2, if_neg h3, if_neg h4, if_neg h5]
  unfold undoLast
  rw [List.getLast?_concat]
  simp only [hex, List.dropLast_concat]

/-- C1 witness: the failing input — a ledger whose top entry records a
`force_delete` (inverse kind `unknown`). -/
theorem undo_unknown_inverse_takes_success_path_witness :
    (⟨"t", "force_delete", [("path", "/tmp/x")], "unknown"⟩ : UndoEntry).undo_action ∉
        executableInverseKinds ∧
      undoLast trivialWorld [⟨"t", "force_delete", [("path", "/tmp/x")], "unknown"⟩] =
        ("↩️ Undone: force_delete\nUnknown undo action: unknown", [],
          [("undo_executed", "force_delete")]) :=
  ⟨by decide,
    undo_unknown_inverse_takes_success_path trivialWorld []
      ⟨"t", "force_delete", [("path", "/tmp/x")], "unknown"⟩ (by decide)⟩

/-- C9: executing `force_delete` on an existing path reports the force
deletion, appends a ledger entry whose inferred inverse kind is `unknown`
(`force_delete` has no entry in the inverse lookup table), and that inverse
kind is one `_execute_undo` cannot execute — it only reaches the
`Unknown undo action` fallthrough. -/
theorem force_delete_logged_but_irreversible (fs : SimFs) (ts : String)
    (intent : List (String × String)) (stack : List UndoEntry)
    (ha : intent.lookup "action" = some "force_delete")
    (hex : fs.pathExists (intentPath intent) = true) :
    (executeCommand fs ts intent stack).1 =
        "💥 Force deleted: " ++ intentPath intent ∧
      (executeCommand fs ts intent stack).2.getLast? =
        some ⟨ts, "force_delete", [("path", intentPath intent)], "unknown"⟩ ∧
      "unknown" ∉ executableInverseKinds ∧
      (∀ w : FsWorld,
        executeUndo w ⟨ts, "force_delete", [("path", intentPath intent)], "unknown"⟩ =
          .ok "Unknown undo action: unknown") := by
  have hentry : mkEntry ts "force_delete" [("path", intentPath intent)] none =
      ⟨ts, "force_delete", [("path", intentPath intent)], "unknown"⟩ := by
    simp [mkEntry, inferUndoAction]
  have hcmd : executeCommand fs ts intent stack =
      ("💥 Force deleted: " ++ intentPath intent,
        logOperation stack ts "force_delete" [("path", intentPath intent)] none) := by
    unfold executeCommand
    rw [ha]
    simp [hex]
  refine ⟨by rw [hcmd], ?_, by decide, ?_⟩
  · rw [hcmd]
    simpa [hentry] using
      logOperation_getLast stack ts "force_delete" [("path", intentPath intent)] none
  · intro w
    rfl

/-- C9 witness: a force delete of `/tmp/x` on a filesystem where the path
exists. -/
theorem force_delete_logged_but_irreversible_witness :
    ([("action", "force_delete"), ("path", "/tmp/x")].lookup "action" =
        some "force_delete") ∧
      allFilesFs.pathExists
        (intentPath [("action", "force_delete"), ("path", "/tmp/x")]) = true ∧
      (executeCommand allFilesFs "t" [("action", "force_delete"), ("path", "/tmp/x")]
          []).2.getLast? =
        some ⟨"t", "force_delete", [("path", "/tmp/x")], "unknown"⟩ :=
  ⟨rfl, rfl,
    by
      have := force_delete_logged_but_irreversible allFilesFs "t"
        [("action", "force_delete"), ("path", "/tmp/x")] [] rfl rfl
      simpa using this.2.1⟩

/-- C2: whenever the path argument prefix-matches an entry of
`PROTECTED_PATHS`, `check_safety` returns `deny` at level `CRITICAL` with a
reason naming the first matching protected rule — for every intent, every
action text and even every rule table (the dangerous-action scan is
short-circuited). -/
theorem protected_path_always_denied (rules : List SafetyRule)
    (intent : List (String × String)) (action : String) (p pr : String)
    (h : PROTECTED_PATHS.find? (fun q => strStartsWith p q) = some pr) :
    checkSafety rules intent action (some p) =
      ⟨false, "deny", "CRITICAL", "Protected system path: " ++ pr⟩ := by
  have hp : ¬ p = "" := by
    intro hp
    subst hp
    rw [show PROTECTED_PATHS.find? (fun q => strStartsWith "" q) = none by decide] at h
    exact Option.noConfusion h
  have hph : protectedHit (some p) = some pr := by
    simp only [protectedHit]
    rw [if_neg hp, h]
  exact checkSafety_protected rules intent action (some p) pr hph

/-- C2 witness: the spec scenario path `/etc/foo` (its first matching
protected entry is `/`), under a read-only intent and a harmless action. -/
theorem protected_path_always_denied_witness :
    (PROTECTED_PATHS.find? (fun q => strStartsWith "/etc/foo" q) = some "/") ∧
      checkSafety defaultSafetyRules [("intent", "status")] "open"
          (some "/etc/foo") =
        ⟨false, "deny", "CRITICAL", "Protected system path: /"⟩ :=
  ⟨by decide,
    protected_path_always_denied defaultSafetyRules [("intent", "status")] "open"
      "/etc/foo" "/" (by decide)⟩

/-- C3 counterexample: the read-only intent `status` with action text
`delete` is NOT `SAFE`/allow — the dangerous-action rule `delete` fires and
yields `confirm`/`DANGEROUS`. -/
theorem read_only_intent_not_always_safe :
    checkSafety defaultSafetyRules [("intent", "status")] "delete" none ≠
        ⟨true, "allow", "SAFE", ""⟩ ∧
      checkSafety defaultSafetyRules [("intent", "status")] "delete" none =
        ⟨false, "confirm", "DANGEROUS", "Destructive operation"⟩ := by
  constructor <;> decide

/-- C3 amended: a read-only intent name yields `SAFE`/allow provided the
path does not prefix-match a protected path and no dangerous-action rule
pattern occurs in the lowercased action text or intent representation. -/
theorem read_only_intent_safe_when_no_rule_fires (intent : List (String × String))
    (action : String) (path : Option String)
    (hro : isReadOnlyIntent intent = true)
    (hpp : protectedHit path = none)
    (hdr : defaultSafetyRules.find? (ruleMatches intent action) = none) :
    checkSafety defaultSafetyRules intent action path =
      ⟨true, "allow", "SAFE", ""⟩ := by
  rw [checkSafety_fallback defaultSafetyRules intent action path hpp hdr]
  simp [hro]

/-- C3 amended witness: the `status` intent with a harmless action and no
path. -/
theorem read_only_intent_safe_when_no_rule_fires_witness :
    isReadOnlyIntent [("intent", "status")] = true ∧
      protectedHit none = none ∧
      defaultSafetyRules.find?
          (ruleMatches [("intent", "status")] "show me the summary") = none ∧
      checkSafety defaultSafetyRules [("intent", "status")] "show me the summary"
          none =
        ⟨true, "allow", "SAFE", ""⟩ :=
  ⟨by decide, rfl, by decide,
    read_only_intent_safe_when_no_rule_fires [("intent", "status")]
      "show me the summary" none (by decide) rfl (by decide)⟩

/-- C8: under the default rule set, `check_safety` returns `deny` exactly
when the path prefix-matches a protected path; whenever a dangerous-action
rule fires instead, the verdict is `confirm` with `safe = false`, never
`deny`. -/
theorem default_rules_deny_only_for_protected_paths
    (intent : List (String × String)) (action : String) (path : Option String) :
    ((checkSafety defaultSafetyRules intent action path).action = "deny" ↔
        (protectedHit path).isSome = true) ∧
      (∀ r, protectedHit path = none →
        defaultSafetyRules.find? (ruleMatches intent action) = some r →
        (checkSafety defaultSafetyRules intent action path).action = "confirm" ∧
          (checkSafety defaultSafetyRules intent action path).safe = false) := by
  constructor
  · cases hp : protectedHit path with
    | some pr =>
      rw [checkSafety_protected defaultSafetyRules intent action path pr hp]
      simp
    | none =>
      cases hf : defaultSafetyRules.find? (ruleMatches intent action) with
      | some r =>
        rw [checkSafety_rule defaultSafetyRules intent action path r hp hf]
        have hact := find_default_rule_confirm intent action r hf
        simp [ruleVerdict, hact]
      | none =>
        rw [checkSafety_fallback defaultSafetyRules intent action path hp hf]
        simp
  · intro r hp hf
    rw [checkSafety_rule defaultSafetyRules intent action path r hp hf]
    have hact := find_default_rule_confirm intent action r hf
    simp [ruleVerdict, hact]

/-- C8 witness: with no path, the action text `please delete this` fires the
`delete` rule and yields `confirm` with `safe = false`. -/
theorem default_rules_deny_only_for_protected_paths_witness :
    (checkSafety defaultSafetyRules [("intent", "create_project")]
        "please delete this" none).action = "confirm" ∧
      (checkSafety defaultSafetyRules [("intent", "create_project")]
        "please delete this" none).safe = false :=
  (default_rules_deny_only_for_protected_paths [("intent", "create_project")]
      "please delete this" none).2
    ⟨"dangerous_action", "delete", "confirm", "Destructive operation"⟩ rfl (by decide)

/-- C6 counterexample: on twenty recent events that contain the adjacent
pair `(create_flask_project, install_dependencies)` exactly three times
with both members successful, `detect_repeated_pattern(3)` does NOT return
the pattern the spec scenario claims: the stored key is split at its FIRST
underscore, so the returned trigger intent is `create`, not
`create_flask_project`. -/
theorem detect_pattern_scenario_counterexample :
    scenarioEvents.length = 20 ∧
      ((adjPairs scenarioEvents).countP
        (fun p => (p.1.intent = "create_flask_project") &&
          (p.2.intent = "install_dependencies") &&
          p.1.success && p.2.success)) = 3 ∧
      detectRepeatedPattern scenarioEvents 3 ≠
        some ⟨"create_flask_project", ["install_dependencies"], 3 / 20⟩ := by
  refine ⟨by decide, by decide, ?_⟩
  intro hcl
  have h1 : (detectRepeatedPattern scenarioEvents 3).map
      SuggestedPattern.triggerIntent = some "create_flask_project" := by
    rw [hcl]
    rfl
  have h2 : (detectRepeatedPattern scenarioEvents 3).map
      SuggestedPattern.triggerIntent = some "create" := by decide
  rw [h2] at h1
  exact absurd (Option.some.inj h1) (by decide)

/-- C6 amended: on that scenario, `detect_repeated_pattern(3)` returns
`\x7btrigger: \x7bintent: "create"\x7d, actions:
["flask_project_install_dependencies"], confidence: 0.15\x7d` — the
counter key `create_flask_project_install_dependencies` is split at its
first underscore. -/
theorem detect_pattern_scenario_first_underscore :
    detectRepeatedPattern scenarioEvents 3 =
      some ⟨"create", ["flask_project_install_dependencies"], 3 / 20⟩ := by
  have hfind : (buildSequences scenarioEvents).find? (fun kc => 3 ≤ kc.2) =
      some ("create_flask_project_install_dependencies", 3) := by decide
  have hsplit : splitOnceUnderscore "create_flask_project_install_dependencies" =
      some ("create", "flask_project_install_dependencies") := by decide
  have hlen : scenarioEvents.length = 20 := by decide
  unfold detectRepeatedPattern
  rw [hfind]
  simp only [hsplit, hlen]
  norm_num

/-- C7 counterexample: `remember_workflow(trigger, actions)` stores the
workflow under its default scope `global`, so looking it up with any other
scope — here `project` — returns no workflow at all: the round-trip fails
when the claim's universally quantified scope differs from `global`. -/
theorem workflow_roundtrip_fails_for_other_scope :
    getWorkflowsForTrigger
        (rememberWorkflow (fun s => s) [] ⟨"a", none⟩ ["b"] "global").1
        "a" none "project" = [] ∧
      ¬ ∃ wf ∈ getWorkflowsForTrigger
          (rememberWorkflow (fun s => s) [] ⟨"a", none⟩ ["b"] "global").1
          "a" none "project", wf.actions = ["b"] := by
  have h0 : getWorkflowsForTrigger
      (rememberWorkflow (fun s => s) [] ⟨"a", none⟩ ["b"] "global").1
      "a" none "project" = ([] : List WorkflowData) := rfl
  refine ⟨h0, ?_⟩
  rintro ⟨wf, hmem, -⟩
  rw [h0] at hmem
  exact List.not_mem_nil wf hmem

/-- C7 amended: for every trigger and action list, remembering a workflow
and querying with the SAME scope the store used (`global`, the
`remember_workflow` default) on a fresh store returns an enabled workflow
whose actions are the remembered ones. -/
theorem workflow_roundtrip_holds_for_global_scope (hashFn : String → String)
    (trigger : Trigger) (actions : List String) :
    ∃ wf ∈ getWorkflowsForTrigger
        (rememberWorkflow hashFn [] trigger actions "global").1
        trigger.intent trigger.tech "global",
      wf.actions = actions ∧ wf.enabled = true := by
  cases trigger with
  | mk tintent ttech =>
  have hrow : (rememberWorkflow hashFn [] ⟨tintent, ttech⟩ actions "global").1 =
      [⟨"workflow_" ++ tintent ++ "_" ++ ttech.getD "any" ++ "_" ++ "global",
        ⟨hashFn (tintent ++ "_" ++ ttech.getD "any" ++ "_" ++ "global"),
          ⟨tintent, ttech⟩, actions, "global", 9 / 10, true⟩,
        "workflow", "", 0⟩] := rfl
  have hcond : searchRowMatches "" (some "workflow")
      ⟨"workflow_" ++ tintent ++ "_" ++ ttech.getD "any" ++ "_" ++ "global",
        ⟨hashFn (tintent ++ "_" ++ ttech.getD "any" ++ "_" ++ "global"),
          ⟨tintent, ttech⟩, actions, "global", 9 / 10, true⟩,
        "workflow", "", 0⟩ = true := by
    simp only [searchRowMatches, strContains_empty, Bool.true_or]
  have hsearch : memSearch
      [⟨"workflow_" ++ tintent ++ "_" ++ ttech.getD "any" ++ "_" ++ "global",
        ⟨hashFn (tintent ++ "_" ++ ttech.getD "any" ++ "_" ++ "global"),
          ⟨tintent, ttech⟩, actions, "global", 9 / 10, true⟩,
        "workflow", "", 0⟩] "" (some "workflow") 50 =
      [⟨"workflow_" ++ tintent ++ "_" ++ ttech.getD "any" ++ "_" ++ "global",
        ⟨hashFn (tintent ++ "_" ++ ttech.getD "any" ++ "_" ++ "global"),
          ⟨tintent, ttech⟩, actions, "global", 9 / 10, true⟩,
        "workflow", "", 0⟩] := by
    unfold memSearch
    rw [List.filter_cons_of_pos hcond, List.filter_nil]
    rfl
  have hfilt : workflowFilter tintent ttech "global"
      ⟨hashFn (tintent ++ "_" ++ ttech.getD "any" ++ "_" ++ "global"),
        ⟨tintent, ttech⟩, actions, "global", 9 / 10, true⟩ = true := by
    cases ttech <;> simp [workflowFilter]
  have hres : getWorkflowsForTrigger
      (rememberWorkflow hashFn [] ⟨tintent, ttech⟩ actions "global").1
      tintent ttech "global" =
      [⟨hashFn (tintent ++ "_" ++ ttech.getD "any" ++ "_" ++ "global"),
        ⟨tintent, ttech⟩, actions, "global", 9 / 10, true⟩] := by
    unfold getWorkflowsForTrigger
    rw [hrow, hsearch, List.map_cons, List.map_nil,
      List.filter_cons_of_pos hfilt, List.filter_nil]
    rfl
  exact ⟨_, by rw [hres]; exact List.mem_singleton_self _, rfl, rfl⟩

end ValAI
